import Mathlib

/-!
Verification of the nextjs-graphql scaffold.

The repository wires a Next.js app to a GraphQL schema (built with
@nexus/schema over a Prisma data model) and an isomorphic Apollo client.
The development below is a shallow embedding of the repository's own code:

* `createIsomorphLink`, `createApolloClient`, `initApolloClient` and
  `WithApollo.getInitialProps` come from `apollo/index.js`;
* `createContext` and the module-level Prisma handle come from
  `schema/context.ts`;
* `projectDirname` and the two output paths come from `schema/index.ts`;
* the data model and `seed.js` come from `prisma/schema.prisma` and
  `prisma/seed.js`;
* the `Users` page component comes from `pages/index.tsx`.

Ambient JavaScript facts are made explicit: the presence of the browser
`window` object becomes a `Bool` parameter, module-level mutable state
becomes explicit state passing, and `try`/`catch` becomes a `match` on an
`Except` outcome.
-/

namespace NextjsGraphql

/-! ### Apollo links (`apollo/index.js`, `createIsomorphLink`) -/

/-- Handle for the schema value provided by the `apollo/schema.js` module
(loaded from `apollo/schema.graphql`); its internals never matter here, only
its identity. -/
def apolloSchemaHandle : Nat := 0

/-- An Apollo link, as constructed by `createIsomorphLink`: either a
`SchemaLink \x7b schema, context \x7d` or an
`HttpLink \x7b uri, credentials \x7d`. -/
inductive ApolloLink where
  | schemaLink (schemaHandle : Nat) (ctxId : Nat) : ApolloLink
  | httpLink (uri : String) (credentials : String) : ApolloLink
  deriving Repr, DecidableEq

/-- Whether a link is the in-process schema link (as opposed to HTTP). -/
def ApolloLink.isSchema : ApolloLink → Bool
  | .schemaLink _ _ => true
  | .httpLink _ _ => false

/-- `createIsomorphLink(ctx)` from `apollo/index.js`.  The ambient check
`typeof window === 'undefined'` is the explicit argument `windowUndefined`. -/
def createIsomorphLink (windowUndefined : Bool) (ctxId : Nat) : ApolloLink :=
  if windowUndefined then
    ApolloLink.schemaLink apolloSchemaHandle ctxId
  else
    ApolloLink.httpLink "/api/graphql" "same-origin"

/-! ### Apollo client construction and the module-level singleton -/

/-- An Apollo client instance; `id` identifies the allocation, so distinct
constructions yield distinct clients. -/
structure ApolloClient where
  id : Nat
  ssrMode : Bool
  link : ApolloLink
  deriving Repr, DecidableEq

/-- The mutable module state of `apollo/index.js`:
`let globalApolloClient = null` plus an allocation counter that makes
"new client object" explicit. -/
structure ApolloModuleState where
  globalApolloClient : Option ApolloClient
  nextClientId : Nat
  deriving Repr, DecidableEq

/-- Module state at load time: no global client yet. -/
def initialApolloModuleState : ApolloModuleState := ⟨none, 0⟩

/-- `createApolloClient(ctx, initialState)` from `apollo/index.js`: always
allocates a new `ApolloClient` with `ssrMode = (typeof window === 'undefined')`
and the link chosen by `createIsomorphLink`. -/
def createApolloClient (windowUndefined : Bool) (ctxId : Nat)
    (s : ApolloModuleState) : ApolloClient × ApolloModuleState :=
  (⟨s.nextClientId, windowUndefined, createIsomorphLink windowUndefined ctxId⟩,
   { s with nextClientId := s.nextClientId + 1 })

/-- `initApolloClient(ctx, initialState)` from `apollo/index.js`: on the
server (`window` undefined) always a fresh client; in the browser the
module-level `globalApolloClient` is created on first use and reused. -/
def initApolloClient (windowUndefined : Bool) (ctxId : Nat)
    (s : ApolloModuleState) : ApolloClient × ApolloModuleState :=
  if windowUndefined then
    createApolloClient windowUndefined ctxId s
  else
    match s.globalApolloClient with
    | some c => (c, s)
    | none =>
        let r := createApolloClient windowUndefined ctxId s
        (r.1, { r.2 with globalApolloClient := some r.1 })

/-! ### Context factory (`schema/context.ts`) -/

/-- The Prisma client handle; `handleId` identifies the instance. -/
structure PrismaClient where
  handleId : Nat
  deriving Repr, DecidableEq

/-- The `Context` interface of `schema/context.ts`: exactly one field. -/
structure Context where
  prisma : PrismaClient
  deriving Repr, DecidableEq

/-- The loaded `schema/context.ts` module: it holds the one Prisma client
constructed by `const prisma = new PrismaClient()` at module load. -/
structure ContextModule where
  prisma : PrismaClient
  deriving Repr, DecidableEq

/-- `createContext` from `schema/context.ts`: `(): Context => (\x7b prisma \x7d)`,
reading the module-level handle. -/
def createContext (m : ContextModule) : Context := ⟨m.prisma⟩

/-- Loading `schema/context.ts`: runs `new PrismaClient()` (whose outcome is
the argument) with no try/catch around it, then binds the module.  A failure
of the constructor is a failure of the whole module load, unmodified. -/
def loadContextModule (clientInit : Except String PrismaClient) :
    Except String ContextModule :=
  match clientInit with
  | .ok c => .ok ⟨c⟩
  | .error e => .error e

/-! ### Data model (`prisma/schema.prisma`) and seed script (`prisma/seed.js`)

Timestamps are modelled as `Nat`; `db.now` is the creation time the database
would stamp via `@default(now())`. -/

/-- A `Post` row: `id` autoincrement primary key, `createdAt` defaulting to
creation time, required `title`, optional `content`, `published` defaulting
to `false`, and the `authorId` foreign key. -/
structure Post where
  id : Nat
  createdAt : Nat
  title : String
  content : Option String
  published : Bool
  authorId : Nat
  deriving Repr, DecidableEq

/-- A `Profile` row: `id` autoincrement primary key, optional `bio`, unique
`userId` foreign key. -/
structure Profile where
  id : Nat
  bio : Option String
  userId : Nat
  deriving Repr, DecidableEq

/-- A `User` row: `id` autoincrement primary key, unique `email`, optional
`name`.  The `posts` and `profile` relations live in the other tables. -/
structure User where
  id : Nat
  email : String
  name : Option String
  deriving Repr, DecidableEq

/-- Database state: the three tables, their autoincrement counters, and the
current time used for `@default(now())`. -/
structure DB where
  users : List User
  posts : List Post
  profiles : List Profile
  nextUserId : Nat
  nextPostId : Nat
  nextProfileId : Nat
  now : Nat
  deriving Repr, DecidableEq

/-- An empty database whose clock reads `t`; autoincrement ids start at 1. -/
def emptyDB (t : Nat) : DB := ⟨[], [], [], 1, 1, 1, t⟩

/-- Nested `posts: \x7b create: ... \x7d` input as used by `seed.js`; omitted
fields are `none` and take the schema defaults. -/
structure PostCreateInput where
  title : String
  content : Option String
  published : Option Bool
  deriving Repr, DecidableEq

/-- Nested `profile: \x7b create: ... \x7d` input as used by `seed.js`. -/
structure ProfileCreateInput where
  bio : Option String
  deriving Repr, DecidableEq

/-- `db.user.create(\x7b data: ... \x7d)` input shape used by `seed.js`. -/
structure UserCreateInput where
  email : String
  name : Option String
  posts : List PostCreateInput
  profile : Option ProfileCreateInput
  deriving Repr, DecidableEq

/-- Insert one post for `authorId`, applying the schema defaults
`published = false` and `createdAt = now()` when the input omits them. -/
def createPost (db : DB) (authorId : Nat) (inp : PostCreateInput) : DB :=
  let p : Post :=
    ⟨db.nextPostId, db.now, inp.title, inp.content,
     inp.published.getD false, authorId⟩
  { db with posts := db.posts ++ [p], nextPostId := db.nextPostId + 1 }

/-- Insert one profile for `userId`. -/
def createProfile (db : DB) (userId : Nat) (inp : ProfileCreateInput) : DB :=
  let pr : Profile := ⟨db.nextProfileId, inp.bio, userId⟩
  { db with profiles := db.profiles ++ [pr],
            nextProfileId := db.nextProfileId + 1 }

/-- `db.user.create` with nested `posts.create` and `profile.create`, per the
declared Prisma schema: the user row, then its posts, then its profile. -/
def userCreate (db : DB) (inp : UserCreateInput) : DB :=
  let u : User := ⟨db.nextUserId, inp.email, inp.name⟩
  let db1 :=
    { db with users := db.users ++ [u], nextUserId := db.nextUserId + 1 }
  let db2 := inp.posts.foldl (fun d pc => createPost d u.id pc) db1
  match inp.profile with
  | none => db2
  | some pc => createProfile db2 u.id pc

/-- `main()` of `prisma/seed.js`: create Alice with one post titled
"Hello World" (no `content`, no `published`) and a profile
"I like turtles". -/
def seedMain (db : DB) : DB :=
  userCreate db
    ⟨"alice@prisma.io", some "Alice",
     [⟨"Hello World", none, none⟩], some ⟨some "I like turtles"⟩⟩

/-- A user record as returned by the `users` query with nested `posts` and
`profile`. -/
structure UserRecord where
  id : Nat
  email : String
  name : Option String
  posts : List Post
  profile : Option Profile
  deriving Repr, DecidableEq

/-- Modelled from the spec: the `users` query resolver (the repository's
`schema/Query.ts` is not under src/).  Per the spec's end-to-end scenario it
returns all users with their nested posts and profile, exactly as
`db.user.findMany(\x7b include: \x7b posts: true, profile: true \x7d \x7d)`
does in `prisma/seed.js`. -/
def usersQuery (db : DB) : List UserRecord :=
  db.users.map (fun u =>
    ⟨u.id, u.email, u.name,
     db.posts.filter (fun p => p.authorId == u.id),
     db.profiles.find? (fun pr => pr.userId == u.id)⟩)

/-! ### Schema assembly (`schema/index.ts`) -/

/-- Node's `path.join`, modelled as separator concatenation; dot-segment
normalization is not modelled (the repository's two relative output paths
contain no dot segments). -/
def pathJoin (a b : String) : String :=
  if a = "" then b else if b = "" then a else a ++ "/" ++ b

/-- `PROJECT_DIRNAME` from `schema/index.ts`:
`typeof process.env.PROJECT_DIRNAME !== 'undefined' ?
process.env.PROJECT_DIRNAME : path.join(__dirname, '..')`.
`env` is `some v` when the variable is defined with value `v` (possibly
empty) and `none` when it is undefined; `dirname` is the schema module's
directory. -/
def projectDirname (env : Option String) (dirname : String) : String :=
  match env with
  | some v => v
  | none => pathJoin dirname ".."

/-- The `outputs.typegen` path passed to `makeSchema`. -/
def typegenOutputPath (env : Option String) (dirname : String) : String :=
  pathJoin (projectDirname env dirname)
    "node_modules/@types/nexus-typegen/index.d.ts"

/-- The `outputs.schema` path passed to `makeSchema`. -/
def schemaOutputPath (env : Option String) (dirname : String) : String :=
  pathJoin (projectDirname env dirname) "apollo/schema.graphql"

/-- "`p` lies under `root`": `p` is `root` followed by some suffix. -/
def isUnder (root p : String) : Prop := ∃ rest, p = root ++ rest

/-- A Nexus type definition: a GraphQL object type name with its exposed
field names. -/
structure NexusTypeDef where
  name : String
  fields : List String
  deriving Repr, DecidableEq

/-- Modelled from the spec: `schema/User.ts` is repository code not under
src/; its field list follows the spec's data-model table (id, email, name,
plus the posts and profile relations). -/
def UserTypeDef : NexusTypeDef :=
  ⟨"User", ["id", "email", "name", "posts", "profile"]⟩

/-- Modelled from the spec: `schema/Profile.ts` is repository code not under
src/; its field list follows the spec's data-model table (id, bio, plus the
user relation). -/
def ProfileTypeDef : NexusTypeDef := ⟨"Profile", ["id", "bio", "user"]⟩

/-- Modelled from the spec: `schema/Post.ts` is repository code not under
src/; its field list follows the spec's data-model table (id, createdAt,
title, content, published, plus the author relation). -/
def PostTypeDef : NexusTypeDef :=
  ⟨"Post", ["id", "createdAt", "title", "content", "published", "author"]⟩

/-- Modelled from the spec: `schema/Query.ts` is repository code not under
src/; per the spec's end-to-end scenario it exposes the `users` query. -/
def QueryTypeDef : NexusTypeDef := ⟨"Query", ["users"]⟩

/-- Modelled from the spec: `schema/Mutation.ts` is repository code not under
src/ and the spec names no mutation field; modelled with no fields. -/
def MutationTypeDef : NexusTypeDef := ⟨"Mutation", []⟩

/-- An executable GraphQL schema: the object types it exposes. -/
structure GraphQLSchema where
  types : List NexusTypeDef
  deriving Repr, DecidableEq

/-- The configuration handed to `makeSchema` in `schema/index.ts` (the
`plugins` and `typegenAutoConfig` entries carry no behavior modelled here). -/
structure MakeSchemaConfig where
  types : List NexusTypeDef
  typegenOutput : String
  schemaOutput : String
  deriving Repr, DecidableEq

/-- A filesystem write performed by the schema build. -/
structure FileWrite where
  path : String
  deriving Repr, DecidableEq

/-- Modelled from the spec: `makeSchema` of @nexus/schema is third-party
code; per the spec it returns an executable schema exposing exactly the
given types' declared fields, and its only side effects are writing the two
configured output files. -/
def makeSchema (cfg : MakeSchemaConfig) : GraphQLSchema × List FileWrite :=
  (⟨cfg.types⟩, [⟨cfg.typegenOutput⟩, ⟨cfg.schemaOutput⟩])

/-- The default export of `schema/index.ts`: `makeSchema` applied to
`types: [Query, Mutation, User, Profile, Post]` and the two output paths
rooted at `PROJECT_DIRNAME`. -/
def schemaModule (env : Option String) (dirname : String) :
    GraphQLSchema × List FileWrite :=
  makeSchema
    ⟨[QueryTypeDef, MutationTypeDef, UserTypeDef, ProfileTypeDef, PostTypeDef],
     typegenOutputPath env dirname, schemaOutputPath env dirname⟩

/-- Look up the field list an assembled schema exposes for type `n`. -/
def fieldsOf (s : GraphQLSchema) (n : String) : Option (List String) :=
  (s.types.find? (fun t => t.name == n)).map (fun t => t.fields)

/-! ### The `Users` page component (`pages/index.tsx`) -/

/-- A post as delivered by the page's `USER` query selection
(`id title published`). -/
structure PostData where
  id : Nat
  title : String
  published : Bool
  deriving Repr, DecidableEq

/-- A user as delivered by the page's `USER` query selection
(`id email name posts`). -/
structure UserData where
  id : Nat
  email : String
  name : String
  posts : List PostData
  deriving Repr, DecidableEq

/-- The `\x7b loading, error, data \x7d` triple `useQuery` hands the
component; `error` is whether an error object is present, and `users` is
`data.users`. -/
structure QueryResult where
  loading : Bool
  error : Bool
  users : List UserData
  deriving Repr, DecidableEq

/-- One rendered `<div key=\x7bid\x7d>` per user: the key, the text of the
name/email paragraph, and one `(key, text)` pair per post paragraph. -/
structure UserDiv where
  key : Nat
  namePara : String
  postParas : List (Nat × String)
  deriving Repr, DecidableEq

/-- What the `Users` component returns: a single paragraph (loading or
error) or the list of per-user divs. -/
inductive Rendered where
  | para (s : String) : Rendered
  | userList (l : List UserDiv) : Rendered
  deriving Repr, DecidableEq

/-- The post paragraph of `pages/index.tsx`:
`Post: "\x7btitle\x7d" is \x7bpublished ? 'published' : 'not published'\x7d.` -/
def renderPost (p : PostData) : Nat × String :=
  (p.id,
   "Post: \"" ++ p.title ++ "\" is " ++
     (if p.published then "published" else "not published") ++ ".")

/-- The per-user div of `pages/index.tsx`: `\x7bname\x7d (\x7bemail\x7d)`
followed by the post paragraphs. -/
def renderUser (u : UserData) : UserDiv :=
  ⟨u.id, u.name ++ " (" ++ u.email ++ ")", u.posts.map renderPost⟩

/-- The `Users` component of `pages/index.tsx`: loading check, then error
check, then the mapped user divs. -/
def Users (qr : QueryResult) : Rendered :=
  if qr.loading then .para "Loading..."
  else if qr.error then .para "Error :("
  else .userList (qr.users.map renderUser)

/-! ### `WithApollo.getInitialProps` (`apollo/index.js`) -/

/-- The props `WithApollo.getInitialProps` resolves with: the wrapped page's
props (an abstract handle) and, when reached, the `apolloState` extracted
from the client cache (an abstract handle). -/
structure InitialProps where
  pagePropsId : Nat
  apolloState : Option Nat
  deriving Repr, DecidableEq

/-- `WithApollo.getInitialProps` from `apollo/index.js`, after the wrapped
page's own props have resolved to `pagePropsId`:

* on the server (`windowUndefined`), if the response is already finished it
  returns the bare page props;
* otherwise, if `ssr` is enabled, it awaits `getDataFromTree` — whose
  outcome is the argument `treeResult` — inside a `try` whose `catch`
  passes the error to `console.error` (the returned log list);
* it then extracts `apolloClient.cache.extract()` (= `cacheExtract`) and
  resolves with the page props plus `apolloState`.

The `Except` result records whether the step itself rejects. -/
def getInitialProps (windowUndefined ssr resFinished : Bool)
    (pagePropsId : Nat) (treeResult : Except String Unit)
    (cacheExtract : Nat) :
    Except String (InitialProps × List (String × String)) :=
  if windowUndefined then
    if resFinished then .ok (⟨pagePropsId, none⟩, [])
    else
      let log :=
        if ssr then
          match treeResult with
          | .ok _ => []
          | .error e => [("Error while running `getDataFromTree`", e)]
        else []
      .ok (⟨pagePropsId, some cacheExtract⟩, log)
  else .ok (⟨pagePropsId, some cacheExtract⟩, [])

/-! ### Helper lemmas -/

lemma append_empty_left (b : String) : "" ++ b = b := by
  apply String.ext
  simp [String.data_append]

lemma under_pathJoin (a b : String) (hb : b ≠ "") : isUnder a (pathJoin a b) := by
  by_cases ha : a = ""
  · subst ha
    exact ⟨b, by simp [pathJoin, append_empty_left]⟩
  · exact ⟨"/" ++ b, by simp [pathJoin, ha, hb, String.append_assoc]⟩

lemma renderPost_eq (p : PostData) :
    renderPost p =
      (p.id,
       if p.published then "Post: \"" ++ p.title ++ "\" is published."
       else "Post: \"" ++ p.title ++ "\" is not published.") := by
  cases hp : p.published <;>
    simp only [renderPost, hp, if_true, if_false, String.append_assoc] <;> rfl

/-! ### Claim theorems -/

/-- C1: `createIsomorphLink` builds the in-process schema link (bound to the
schema value of the apollo schema module) exactly when no browser `window`
object exists, and otherwise the HTTP link with the fixed relative uri
`/api/graphql`; which kind of link is built depends only on the window
check, not on the `ctx` argument. -/
theorem createIsomorphLink_env_switch :
    ∀ ctxId : Nat,
      createIsomorphLink true ctxId =
        ApolloLink.schemaLink apolloSchemaHandle ctxId ∧
      createIsomorphLink false ctxId =
        ApolloLink.httpLink "/api/graphql" "same-origin" ∧
      ∀ (w : Bool) (c₁ c₂ : Nat),
        (createIsomorphLink w c₁).isSchema = (createIsomorphLink w c₂).isSchema := by
  intro ctxId
  refine ⟨rfl, rfl, ?_⟩
  intro w c₁ c₂
  cases w <;> rfl

/-- C2: every call of `createContext` returns an object whose `prisma` field
is the module-level Prisma client constructed once at module load (so any
two calls within one process agree), and a `Context` value is determined by
its `prisma` field alone — it exposes no other field. -/
theorem createContext_singleton :
    ∀ m : ContextModule,
      (createContext m).prisma = m.prisma ∧
      ∀ c : Context, c = ⟨c.prisma⟩ := by
  intro m
  exact ⟨rfl, fun c => rfl⟩

/-- C3: in the browser (window present), the first call of
`initApolloClient` stores the client it returns in the module-level
`globalApolloClient`, and a second call returns that same client without
touching the state; on the server (no window), every call returns a freshly
allocated client and leaves `globalApolloClient` unchanged. -/
theorem initApolloClient_singleton_invariant :
    ∀ (ctxId : Nat) (s : ApolloModuleState),
      (let r1 := initApolloClient false ctxId s
       let r2 := initApolloClient false ctxId r1.2
       r1.2.globalApolloClient = some r1.1 ∧ r2.1 = r1.1 ∧ r2.2 = r1.2) ∧
      ((initApolloClient true ctxId s).2.globalApolloClient =
          s.globalApolloClient ∧
       (initApolloClient true ctxId s).1.id = s.nextClientId ∧
       (initApolloClient true ctxId s).2.nextClientId = s.nextClientId + 1) := by
  intro ctxId s
  constructor
  · cases h : s.globalApolloClient with
    | some c => simp [initApolloClient, h]
    | none => simp [initApolloClient, createApolloClient, h]
  · simp [initApolloClient, createApolloClient]

/-- C4: the `Users` component renders exactly one of three cases, loading
checked first, then error: the paragraph `Loading...`, the paragraph
`Error :(`, or one div per returned user carrying the name/email paragraph
and, per post, a paragraph stating the title followed by `is published.` or
`is not published.` according to the post's `published` flag; the output
depends on nothing else. -/
theorem users_component_three_cases :
    ∀ (err : Bool) (users : List UserData),
      Users ⟨true, err, users⟩ = Rendered.para "Loading..." ∧
      Users ⟨false, true, users⟩ = Rendered.para "Error :(" ∧
      Users ⟨false, false, users⟩ = Rendered.userList (users.map (fun u =>
        ⟨u.id, u.name ++ " (" ++ u.email ++ ")",
         u.posts.map (fun p =>
           (p.id,
            if p.published then "Post: \"" ++ p.title ++ "\" is published."
            else "Post: \"" ++ p.title ++ "\" is not published."))⟩)) := by
  intro err users
  refine ⟨rfl, rfl, ?_⟩
  simp only [Users, if_true, if_false, renderUser]
  exact congrArg Rendered.userList (List.map_congr_left (fun u _ => by
    simp only [renderUser]
    exact congrArg _ (List.map_congr_left (fun p _ => renderPost_eq p))))

/-- C5: seeding the empty database (at any clock value `t`) with the
`seed.js` data — Alice, one post titled "Hello World" taking the defaults
`published = false` and `content = null`, one profile "I like turtles" —
and then running the users query with nested posts and profile returns
exactly one record matching the seeded values verbatim. -/
theorem seed_then_users_query :
    ∀ t : Nat,
      usersQuery (seedMain (emptyDB t)) =
        [⟨1, "alice@prisma.io", some "Alice",
          [⟨1, t, "Hello World", none, false, 1⟩],
          some ⟨1, some "I like turtles", 1⟩⟩] := by
  intro t
  rfl

/-- C6: the assembled schema, built from the fixed type list
`[Query, Mutation, User, Profile, Post]`, exposes for each data-model
entity exactly the declared fields — `User`: id, email, name, posts,
profile; `Profile`: id, bio, user; `Post`: id, createdAt, title, content,
published, author — and no type beyond the five listed ones. -/
theorem schema_exposes_declared_fields :
    ∀ (env : Option String) (dirname : String),
      fieldsOf (schemaModule env dirname).1 "User" =
        some ["id", "email", "name", "posts", "profile"] ∧
      fieldsOf (schemaModule env dirname).1 "Profile" =
        some ["id", "bio", "user"] ∧
      fieldsOf (schemaModule env dirname).1 "Post" =
        some ["id", "createdAt", "title", "content", "published", "author"] ∧
      (schemaModule env dirname).1.types.map NexusTypeDef.name =
        ["Query", "Mutation", "User", "Profile", "Post"] := by
  intro env dirname
  exact ⟨rfl, rfl, rfl, rfl⟩

/-- C7: the schema build performs exactly two file writes — the typegen
artifact at `PROJECT_DIRNAME/node_modules/@types/nexus-typegen/index.d.ts`
and the schema definition at `PROJECT_DIRNAME/apollo/schema.graphql` — and
nothing else, besides returning the in-memory schema. -/
theorem schema_build_writes_two_files :
    ∀ (env : Option String) (dirname : String),
      (schemaModule env dirname).2 =
        [⟨typegenOutputPath env dirname⟩, ⟨schemaOutputPath env dirname⟩] ∧
      (schemaModule env dirname).2.map FileWrite.path =
        [pathJoin (projectDirname env dirname)
           "node_modules/@types/nexus-typegen/index.d.ts",
         pathJoin (projectDirname env dirname) "apollo/schema.graphql"] := by
  intro env dirname
  exact ⟨rfl, rfl⟩

/-- C8: the context module wraps no handler around the Prisma client
construction: when the client initialization fails with any exception `e`,
loading the module — and hence any use of `createContext` — fails with
exactly that `e`, unmodified; when it succeeds, the module exposes exactly
the constructed handle. -/
theorem createContext_error_propagation :
    ∀ e : String,
      loadContextModule (Except.error e) = Except.error e ∧
      ∀ c : PrismaClient, loadContextModule (Except.ok c) = Except.ok ⟨c⟩ := by
  intro e
  exact ⟨rfl, fun c => rfl⟩

/-- C9: on the server, with ssr enabled and the response not finished, an
error thrown by `getDataFromTree` is caught and handed to `console.error`,
and `getInitialProps` still resolves with the page props together with the
`apolloState` extracted from the cache; moreover `getInitialProps` resolves
(never rejects) for every combination of inputs at this step. -/
theorem getInitialProps_catches_tree_errors :
    ∀ (p : Nat) (e : String) (cache : Nat),
      getInitialProps true true false p (Except.error e) cache =
        Except.ok (⟨p, some cache⟩,
          [("Error while running `getDataFromTree`", e)]) ∧
      ∀ (w s r : Bool) (tr : Except String Unit),
        ∃ out, getInitialProps w s r p tr cache = Except.ok out := by
  intro p e cache
  refine ⟨rfl, ?_⟩
  intro w s r tr
  cases w <;> cases s <;> cases r <;> cases tr <;> exact ⟨_, rfl⟩

/-- C10: the root of both schema-build output paths is the
`PROJECT_DIRNAME` environment variable whenever it is defined — even when
its value is the empty string — and otherwise `path.join(__dirname, '..')`,
the parent of the schema module's directory; both output paths extend that
single root. -/
theorem output_paths_root :
    ∀ dirname : String,
      (∀ v : String, projectDirname (some v) dirname = v) ∧
      projectDirname none dirname = pathJoin dirname ".." ∧
      ∀ env : Option String,
        isUnder (projectDirname env dirname) (typegenOutputPath env dirname) ∧
        isUnder (projectDirname env dirname) (schemaOutputPath env dirname) := by
  intro dirname
  refine ⟨fun v => rfl, rfl, ?_⟩
  intro env
  constructor
  · exact under_pathJoin _ _ (by decide)
  · exact under_pathJoin _ _ (by decide)

end NextjsGraphql
